import Mathlib

/-!
Shallow embedding of an 8086-class addressing and memory-access core
(Bus Interface Unit, address bus, physical memory array, register file
byte views, flag bank), translated from the Rust sources under
`src/cpu/` (`memory.rs`, `bus.rs`, `registers.rs`, `flags.rs`, `biu.rs`).

Machine integers are modelled as `Nat` with explicit `% 2 ^ w` where the
source computes in a fixed-width type and overflow is conceivable; `u8`
and `u16` ranges appear as hypotheses (`< 2 ^ 8`, `< 2 ^ 16`) on theorem
inputs. Rust's panicking `Vec` indexing is modelled with `Option`:
`none` is the out-of-bounds panic.
-/

/-- MEMORY_SIZE from `memory.rs`: 1 MiB of memory. -/
def MEMORY_SIZE : Nat := 0x00100000

/-- Memory from `memory.rs`: the memory array that stores the data, a
`Vec<u8>` modelled as a list of byte values. -/
structure Memory where
  data : List Nat

/-- Memory::new: allocates `MEMORY_SIZE` zero bytes (`vec![0u8; MEMORY_SIZE]`). -/
def Memory.new : Memory :=
  { data := List.replicate MEMORY_SIZE 0 }

/-- Memory::read: `self.data[address as usize]`; `none` models the
index-out-of-bounds panic. -/
def Memory.read (m : Memory) (address : Nat) : Option Nat :=
  m.data[address]?

/-- Memory::write: `self.data[address as usize] = value`; `none` models the
index-out-of-bounds panic. -/
def Memory.write (m : Memory) (address : Nat) (value : Nat) : Option Memory :=
  if address < m.data.length then some { data := m.data.set address value } else none

/-- AddressBus from `bus.rs`: a latched address plus the owned Memory. -/
structure AddressBus where
  address : Nat
  memory : Memory

/-- AddressBus::new: address 0 and a fresh `Memory::new()`. -/
def AddressBus.new : AddressBus :=
  { address := 0, memory := Memory.new }

/-- AddressBus::set_address: latches a new address. -/
def AddressBus.set_address (b : AddressBus) (address : Nat) : AddressBus :=
  { b with address := address }

/-- AddressBus::read: reads the byte at the latched address. -/
def AddressBus.read (b : AddressBus) : Option Nat :=
  b.memory.read b.address

/-- AddressBus::write: writes a byte at the latched address. -/
def AddressBus.write (b : AddressBus) (value : Nat) : Option AddressBus :=
  (b.memory.write b.address value).map fun m => { b with memory := m }

/-- BusInterfaceUnit from `biu.rs`: segment registers, instruction pointer,
prefetch queue (`Vec<u8>` as a list, push at the tail), and the bus. -/
structure BusInterfaceUnit where
  es : Nat
  cs : Nat
  ss : Nat
  ds : Nat
  ip : Nat
  instruction_queue : List Nat
  bus : AddressBus

/-- BusInterfaceUnit::new. -/
def BusInterfaceUnit.new (es cs ss ds ip : Nat) (instruction_queue : List Nat)
    (bus : AddressBus) : BusInterfaceUnit :=
  { es := es, cs := cs, ss := ss, ds := ds, ip := ip,
    instruction_queue := instruction_queue, bus := bus }

/-- BusInterfaceUnit::push_instruction: `Vec::push`, appends at the tail. -/
def BusInterfaceUnit.push_instruction (b : BusInterfaceUnit) (instruction : Nat) :
    BusInterfaceUnit :=
  { b with instruction_queue := b.instruction_queue ++ [instruction] }

/-- BusInterfaceUnit::pop_instruction: `Vec::pop`, removes and returns the
LAST element of the queue (or `none` when empty). -/
def BusInterfaceUnit.pop_instruction (b : BusInterfaceUnit) :
    Option Nat × BusInterfaceUnit :=
  match b.instruction_queue.getLast? with
  | none => (none, b)
  | some i => (some i, { b with instruction_queue := b.instruction_queue.dropLast })

/-- BusInterfaceUnit::get_fetch_address: `((self.cs as u32) << 4) + self.ip as u32`. -/
def BusInterfaceUnit.get_fetch_address (b : BusInterfaceUnit) : Nat :=
  ((b.cs <<< 4) + b.ip) % 2 ^ 32

/-- BusInterfaceUnit::get_stack_address. -/
def BusInterfaceUnit.get_stack_address (b : BusInterfaceUnit) (sp_offset : Nat) : Nat :=
  ((b.ss <<< 4) + sp_offset) % 2 ^ 32

/-- BusInterfaceUnit::get_string_source_address: `alt_base.unwrap_or(self.ds)`. -/
def BusInterfaceUnit.get_string_source_address (b : BusInterfaceUnit) (si_offset : Nat)
    (alt_base : Option Nat) : Nat :=
  ((alt_base.getD b.ds <<< 4) + si_offset) % 2 ^ 32

/-- BusInterfaceUnit::get_string_destination_address. -/
def BusInterfaceUnit.get_string_destination_address (b : BusInterfaceUnit)
    (di_offset : Nat) : Nat :=
  ((b.es <<< 4) + di_offset) % 2 ^ 32

/-- BusInterfaceUnit::get_data_address: `alt_base.unwrap_or(self.ds)`. -/
def BusInterfaceUnit.get_data_address (b : BusInterfaceUnit) (eu_offset : Nat)
    (alt_base : Option Nat) : Nat :=
  ((alt_base.getD b.ds <<< 4) + eu_offset) % 2 ^ 32

/-- BusInterfaceUnit::get_bp_address: `alt_base.unwrap_or(self.ss)`. -/
def BusInterfaceUnit.get_bp_address (b : BusInterfaceUnit) (eu_bp_offset : Nat)
    (alt_base : Option Nat) : Nat :=
  ((alt_base.getD b.ss <<< 4) + eu_bp_offset) % 2 ^ 32

/-- Register from `registers.rs`: a 16-bit value container with low and
high byte views. -/
structure Register where
  x : Nat

/-- Register::new: initial value 0x0000. -/
def Register.new : Register :=
  { x := 0x0000 }

/-- Register::low: `(self.x & 0x00FF) as u8`. -/
def Register.low (r : Register) : Nat :=
  r.x &&& 0x00FF

/-- Register::high: `((self.x & 0xFF00) >> 8) as u8`. -/
def Register.high (r : Register) : Nat :=
  (r.x &&& 0xFF00) >>> 8

/-- Register::set_low: `self.x = (self.x & 0xFF00) | (value as u16)`. -/
def Register.set_low (r : Register) (value : Nat) : Register :=
  { x := (r.x &&& 0xFF00) ||| value }

/-- Register::set_high: `self.x = (self.x & 0x00FF) | ((value as u16) << 8)`. -/
def Register.set_high (r : Register) (value : Nat) : Register :=
  { x := (r.x &&& 0x00FF) ||| (value <<< 8) }

/-- Register::set: replaces the whole 16-bit value. -/
def Register.set (_r : Register) (value : Nat) : Register :=
  { x := value }

/-- Flags from `flags.rs`: nine independent status/control bits. -/
structure Flags where
  carry : Bool
  parity : Bool
  auxiliary_carry : Bool
  zero : Bool
  sign : Bool
  overflow : Bool
  interrupt_enable : Bool
  direction : Bool
  trap : Bool

/-- Flags::new. -/
def Flags.new (carry parity auxiliary_carry zero sign overflow interrupt_enable
    direction trap : Bool) : Flags :=
  { carry := carry, parity := parity, auxiliary_carry := auxiliary_carry,
    zero := zero, sign := sign, overflow := overflow,
    interrupt_enable := interrupt_enable, direction := direction, trap := trap }

/-- Flags::set_carry. -/
def Flags.set_carry (f : Flags) (value : Bool) : Flags := { f with carry := value }

/-- Flags::set_parity. -/
def Flags.set_parity (f : Flags) (value : Bool) : Flags := { f with parity := value }

/-- Flags::set_auxiliary_carry. -/
def Flags.set_auxiliary_carry (f : Flags) (value : Bool) : Flags :=
  { f with auxiliary_carry := value }

/-- Flags::set_zero. -/
def Flags.set_zero (f : Flags) (value : Bool) : Flags := { f with zero := value }

/-- Flags::set_sign. -/
def Flags.set_sign (f : Flags) (value : Bool) : Flags := { f with sign := value }

/-- Flags::set_overflow. -/
def Flags.set_overflow (f : Flags) (value : Bool) : Flags := { f with overflow := value }

/-- Flags::set_interrupt_enable. -/
def Flags.set_interrupt_enable (f : Flags) (value : Bool) : Flags :=
  { f with interrupt_enable := value }

/-- Flags::set_direction. -/
def Flags.set_direction (f : Flags) (value : Bool) : Flags := { f with direction := value }

/-- Flags::set_trap. -/
def Flags.set_trap (f : Flags) (value : Bool) : Flags := { f with trap := value }

/-- Flags::get_carry. -/
def Flags.get_carry (f : Flags) : Bool := f.carry

/-- Flags::get_parity. -/
def Flags.get_parity (f : Flags) : Bool := f.parity

/-- Flags::get_auxiliary_carry. -/
def Flags.get_auxiliary_carry (f : Flags) : Bool := f.auxiliary_carry

/-- Flags::get_zero. -/
def Flags.get_zero (f : Flags) : Bool := f.zero

/-- Flags::get_sign. -/
def Flags.get_sign (f : Flags) : Bool := f.sign

/-- Flags::get_overflow. -/
def Flags.get_overflow (f : Flags) : Bool := f.overflow

/-- Flags::get_interrupt_enable. -/
def Flags.get_interrupt_enable (f : Flags) : Bool := f.interrupt_enable

/-- Flags::get_direction. -/
def Flags.get_direction (f : Flags) : Bool := f.direction

/-- Flags::get_trap. -/
def Flags.get_trap (f : Flags) : Bool := f.trap

/-- Helper: a 16-bit segment shifted left by 4 plus a 16-bit offset stays
below `0x10FFF0`, hence below `2 ^ 32`. -/
lemma segment_offset_sum_le (sg o : Nat) (hsg : sg < 2 ^ 16) (ho : o < 2 ^ 16) :
    (sg <<< 4) + o ≤ 0x10FFEF := by
  rw [Nat.shiftLeft_eq]
  have e : (2 : Nat) ^ 4 = 16 := by norm_num
  rw [e]
  omega

/-- Helper: the `u32` reduction in the address formula is the identity on
16-bit segment and offset inputs. -/
lemma segment_offset_mod_eq (sg o : Nat) (hsg : sg < 2 ^ 16) (ho : o < 2 ^ 16) :
    ((sg <<< 4) + o) % 2 ^ 32 = (sg <<< 4) + o := by
  have h := segment_offset_sum_le sg o hsg ho
  exact Nat.mod_eq_of_lt (lt_of_le_of_lt h (by norm_num))

/-- C1: every addressing-mode function of the BIU returns exactly
`(s <<< 4) + o` for the 16-bit segment `s` and offset `o` it uses — the
32-bit reduction never wraps or masks the result; in particular the fetch
address for `cs = 0x1005`, `ip = 0x5555` is `0x155A5`. -/
theorem biu_physical_address_formula (b : BusInterfaceUnit) (o s : Nat)
    (hes : b.es < 2 ^ 16) (hcs : b.cs < 2 ^ 16) (hss : b.ss < 2 ^ 16)
    (hds : b.ds < 2 ^ 16) (hip : b.ip < 2 ^ 16) (ho : o < 2 ^ 16) (hs : s < 2 ^ 16) :
    b.get_fetch_address = (b.cs <<< 4) + b.ip ∧
    b.get_stack_address o = (b.ss <<< 4) + o ∧
    b.get_string_source_address o none = (b.ds <<< 4) + o ∧
    b.get_string_source_address o (some s) = (s <<< 4) + o ∧
    b.get_string_destination_address o = (b.es <<< 4) + o ∧
    b.get_data_address o none = (b.ds <<< 4) + o ∧
    b.get_data_address o (some s) = (s <<< 4) + o ∧
    b.get_bp_address o none = (b.ss <<< 4) + o ∧
    b.get_bp_address o (some s) = (s <<< 4) + o ∧
    (BusInterfaceUnit.new 0 0x1005 0 0 0x5555 [] AddressBus.new).get_fetch_address
      = 0x155A5 := by
  refine ⟨segment_offset_mod_eq b.cs b.ip hcs hip,
    segment_offset_mod_eq b.ss o hss ho,
    segment_offset_mod_eq b.ds o hds ho,
    segment_offset_mod_eq s o hs ho,
    segment_offset_mod_eq b.es o hes ho,
    segment_offset_mod_eq b.ds o hds ho,
    segment_offset_mod_eq s o hs ho,
    segment_offset_mod_eq b.ss o hss ho,
    segment_offset_mod_eq s o hs ho, by decide⟩

/-- Witness for C1 at a concrete state. -/
theorem biu_physical_address_formula_witness :
    (BusInterfaceUnit.new 1 2 3 4 5 [] AddressBus.new).es < 2 ^ 16 ∧
    ((BusInterfaceUnit.new 1 2 3 4 5 [] AddressBus.new).get_fetch_address
        = ((BusInterfaceUnit.new 1 2 3 4 5 [] AddressBus.new).cs <<< 4)
          + (BusInterfaceUnit.new 1 2 3 4 5 [] AddressBus.new).ip ∧
      (BusInterfaceUnit.new 1 2 3 4 5 [] AddressBus.new).get_stack_address 6
        = ((BusInterfaceUnit.new 1 2 3 4 5 [] AddressBus.new).ss <<< 4) + 6 ∧
      (BusInterfaceUnit.new 1 2 3 4 5 [] AddressBus.new).get_string_source_address 6 none
        = ((BusInterfaceUnit.new 1 2 3 4 5 [] AddressBus.new).ds <<< 4) + 6 ∧
      (BusInterfaceUnit.new 1 2 3 4 5 [] AddressBus.new).get_string_source_address 6 (some 7)
        = (7 <<< 4) + 6 ∧
      (BusInterfaceUnit.new 1 2 3 4 5 [] AddressBus.new).get_string_destination_address 6
        = ((BusInterfaceUnit.new 1 2 3 4 5 [] AddressBus.new).es <<< 4) + 6 ∧
      (BusInterfaceUnit.new 1 2 3 4 5 [] AddressBus.new).get_data_address 6 none
        = ((BusInterfaceUnit.new 1 2 3 4 5 [] AddressBus.new).ds <<< 4) + 6 ∧
      (BusInterfaceUnit.new 1 2 3 4 5 [] AddressBus.new).get_data_address 6 (some 7)
        = (7 <<< 4) + 6 ∧
      (BusInterfaceUnit.new 1 2 3 4 5 [] AddressBus.new).get_bp_address 6 none
        = ((BusInterfaceUnit.new 1 2 3 4 5 [] AddressBus.new).ss <<< 4) + 6 ∧
      (BusInterfaceUnit.new 1 2 3 4 5 [] AddressBus.new).get_bp_address 6 (some 7)
        = (7 <<< 4) + 6 ∧
      (BusInterfaceUnit.new 0 0x1005 0 0 0x5555 [] AddressBus.new).get_fetch_address
        = 0x155A5) :=
  ⟨by decide,
    biu_physical_address_formula (BusInterfaceUnit.new 1 2 3 4 5 [] AddressBus.new) 6 7
      (by decide) (by decide) (by decide) (by decide) (by decide) (by decide) (by decide)⟩

/-- C3: segment resolution per addressing mode — string-source, data and
bp addressing default to `ds`, `ds`, `ss` and an override `some s`
replaces (never combines with) the default, while fetch and
string-destination always use `cs` and `es`; concrete cases from the spec
included. -/
theorem biu_segment_resolution (b : BusInterfaceUnit) (o s : Nat) :
    b.get_string_source_address o none = ((b.ds <<< 4) + o) % 2 ^ 32 ∧
    b.get_string_source_address o (some s) = ((s <<< 4) + o) % 2 ^ 32 ∧
    b.get_data_address o none = ((b.ds <<< 4) + o) % 2 ^ 32 ∧
    b.get_data_address o (some s) = ((s <<< 4) + o) % 2 ^ 32 ∧
    b.get_bp_address o none = ((b.ss <<< 4) + o) % 2 ^ 32 ∧
    b.get_bp_address o (some s) = ((s <<< 4) + o) % 2 ^ 32 ∧
    b.get_fetch_address = ((b.cs <<< 4) + b.ip) % 2 ^ 32 ∧
    b.get_string_destination_address o = ((b.es <<< 4) + o) % 2 ^ 32 ∧
    (BusInterfaceUnit.new 0 0 0 0x3000 0 [] AddressBus.new).get_string_source_address
      0x400 none = 0x30400 ∧
    (BusInterfaceUnit.new 0 0 0 0x3000 0 [] AddressBus.new).get_string_source_address
      0x400 (some 0x1000) = 0x10400 ∧
    (BusInterfaceUnit.new 0x4000 0 0 0 0 [] AddressBus.new).get_string_destination_address
      0x500 = 0x40500 :=
  ⟨rfl, rfl, rfl, rfl, rfl, rfl, rfl, rfl, by decide, by decide, by decide⟩

/-- Helper: a value below `2 ^ n` has no set bit at position `n` or above. -/
lemma testBit_false_of_lt (x n i : Nat) (hx : x < 2 ^ n) (hi : n ≤ i) :
    x.testBit i = false :=
  Nat.testBit_lt_two_pow (lt_of_lt_of_le hx (Nat.pow_le_pow_right (by norm_num) hi))

/-- Helper: bits of the low-byte mask 0xFF. -/
lemma testBit_byte_mask (i : Nat) : Nat.testBit 0xFF i = decide (i < 8) := by
  rcases Nat.lt_or_ge i 8 with h | h
  · interval_cases i <;> decide
  · rw [testBit_false_of_lt 0xFF 8 i (by norm_num) h]
    exact (decide_eq_false (by omega)).symm

/-- Helper: bits of the high-byte mask 0xFF00. -/
lemma testBit_high_mask (i : Nat) :
    Nat.testBit 0xFF00 i = (decide (8 ≤ i) && decide (i < 16)) := by
  rcases Nat.lt_or_ge i 16 with h | h
  · interval_cases i <;> decide
  · rw [testBit_false_of_lt 0xFF00 16 i (by norm_num) h]
    have h2 : ¬ i < 16 := by omega
    simp [h2]

/-- C7: register byte-view framing — after `set v1`, `set_low b` yields
value `(v1 &&& 0xFF00) ||| b`, leaves every bit from position 8 up (hence
`high`) unchanged; symmetrically `set_high b` yields
`(v1 &&& 0x00FF) ||| (b <<< 8)` and leaves bits 0-7 (hence `low`) and
bits 16 up unchanged. -/
theorem register_byte_framing (v1 b : Nat) (hv : v1 < 2 ^ 16) (hb : b < 2 ^ 8) :
    ((Register.new.set v1).set_low b).x = ((v1 &&& 0xFF00) ||| b) ∧
    ((Register.new.set v1).set_low b).high = ((v1 >>> 8) &&& 0xFF) ∧
    (∀ i, 8 ≤ i → (((Register.new.set v1).set_low b).x).testBit i = v1.testBit i) ∧
    ((Register.new.set v1).set_high b).x = ((v1 &&& 0x00FF) ||| (b <<< 8)) ∧
    ((Register.new.set v1).set_high b).low = (v1 &&& 0xFF) ∧
    (∀ i, i < 8 ∨ 16 ≤ i →
      (((Register.new.set v1).set_high b).x).testBit i = v1.testBit i) := by
  refine ⟨rfl, ?_, ?_, rfl, ?_, ?_⟩
  · show (((v1 &&& 0xFF00) ||| b) &&& 0xFF00) >>> 8 = (v1 >>> 8) &&& 0xFF
    apply Nat.eq_of_testBit_eq
    intro i
    simp only [Nat.testBit_shiftRight, Nat.testBit_land, Nat.testBit_lor,
      testBit_high_mask, testBit_byte_mask]
    rw [testBit_false_of_lt b 8 (8 + i) hb (by omega)]
    by_cases h : i < 8
    · have h1 : (8 : Nat) ≤ 8 + i := by omega
      have h2 : 8 + i < 16 := by omega
      simp [h, h1, h2]
    · have h2 : ¬ 8 + i < 16 := by omega
      simp [h, h2]
  · intro i hi
    show Nat.testBit ((v1 &&& 0xFF00) ||| b) i = v1.testBit i
    simp only [Nat.testBit_lor, Nat.testBit_land, testBit_high_mask]
    rw [testBit_false_of_lt b 8 i hb hi]
    by_cases h : i < 16
    · simp [hi, h]
    · rw [testBit_false_of_lt v1 16 i hv (by omega)]
      simp
  · show ((v1 &&& 0x00FF) ||| (b <<< 8)) &&& 0x00FF = v1 &&& 0xFF
    apply Nat.eq_of_testBit_eq
    intro i
    simp only [Nat.testBit_land, Nat.testBit_lor, Nat.testBit_shiftLeft,
      testBit_byte_mask]
    by_cases h : i < 8
    · have h1 : ¬ i ≥ 8 := by omega
      simp [h, h1]
    · simp [h]
  · intro i hi
    show Nat.testBit ((v1 &&& 0x00FF) ||| (b <<< 8)) i = v1.testBit i
    simp only [Nat.testBit_lor, Nat.testBit_land, Nat.testBit_shiftLeft,
      testBit_byte_mask]
    rcases hi with h | h
    · have h1 : ¬ i ≥ 8 := by omega
      simp [h, h1]
    · have h1 : ¬ i < 8 := by omega
      rw [testBit_false_of_lt b 8 (i - 8) hb (by omega),
        testBit_false_of_lt v1 16 i hv h]
      simp [h1]

/-- Witness for C7 at `v1 = 0x1234`, `b = 0x56`, frame bits checked at
`i = 9` for `set_low` and at `i = 3` and `i = 20` for `set_high`. -/
theorem register_byte_framing_witness :
    (0x1234 : Nat) < 2 ^ 16 ∧ (0x56 : Nat) < 2 ^ 8 ∧
    ((Register.new.set 0x1234).set_low 0x56).x = ((0x1234 &&& 0xFF00) ||| 0x56) ∧
    ((Register.new.set 0x1234).set_low 0x56).high = ((0x1234 >>> 8) &&& 0xFF) ∧
    (((Register.new.set 0x1234).set_low 0x56).x).testBit 9 = (0x1234 : Nat).testBit 9 ∧
    ((Register.new.set 0x1234).set_high 0x56).x = ((0x1234 &&& 0x00FF) ||| (0x56 <<< 8)) ∧
    ((Register.new.set 0x1234).set_high 0x56).low = (0x1234 &&& 0xFF) ∧
    (((Register.new.set 0x1234).set_high 0x56).x).testBit 3 = (0x1234 : Nat).testBit 3 ∧
    (((Register.new.set 0x1234).set_high 0x56).x).testBit 20 = (0x1234 : Nat).testBit 20 :=
  ⟨by decide, by decide,
    (register_byte_framing 0x1234 0x56 (by decide) (by decide)).1,
    (register_byte_framing 0x1234 0x56 (by decide) (by decide)).2.1,
    (register_byte_framing 0x1234 0x56 (by decide) (by decide)).2.2.1 9 (by decide),
    (register_byte_framing 0x1234 0x56 (by decide) (by decide)).2.2.2.1,
    (register_byte_framing 0x1234 0x56 (by decide) (by decide)).2.2.2.2.1,
    (register_byte_framing 0x1234 0x56 (by decide) (by decide)).2.2.2.2.2 3 (Or.inl (by decide)),
    (register_byte_framing 0x1234 0x56 (by decide) (by decide)).2.2.2.2.2 20 (Or.inr (by decide))⟩

/-- C8: flag-bit independence --- for every starting `Flags` state and
every boolean `x`, each of the nine setters stores `x` so that its own
getter returns `x`, and the other eight getters read back unchanged. -/
theorem flags_bit_independence (f : Flags) (x : Bool) :
    (f.set_carry x).get_carry = x ∧
    (f.set_carry x).get_parity = f.get_parity ∧
    (f.set_carry x).get_auxiliary_carry = f.get_auxiliary_carry ∧
    (f.set_carry x).get_zero = f.get_zero ∧
    (f.set_carry x).get_sign = f.get_sign ∧
    (f.set_carry x).get_overflow = f.get_overflow ∧
    (f.set_carry x).get_interrupt_enable = f.get_interrupt_enable ∧
    (f.set_carry x).get_direction = f.get_direction ∧
    (f.set_carry x).get_trap = f.get_trap ∧
    (f.set_parity x).get_carry = f.get_carry ∧
    (f.set_parity x).get_parity = x ∧
    (f.set_parity x).get_auxiliary_carry = f.get_auxiliary_carry ∧
    (f.set_parity x).get_zero = f.get_zero ∧
    (f.set_parity x).get_sign = f.get_sign ∧
    (f.set_parity x).get_overflow = f.get_overflow ∧
    (f.set_parity x).get_interrupt_enable = f.get_interrupt_enable ∧
    (f.set_parity x).get_direction = f.get_direction ∧
    (f.set_parity x).get_trap = f.get_trap ∧
    (f.set_auxiliary_carry x).get_carry = f.get_carry ∧
    (f.set_auxiliary_carry x).get_parity = f.get_parity ∧
    (f.set_auxiliary_carry x).get_auxiliary_carry = x ∧
    (f.set_auxiliary_carry x).get_zero = f.get_zero ∧
    (f.set_auxiliary_carry x).get_sign = f.get_sign ∧
    (f.set_auxiliary_carry x).get_overflow = f.get_overflow ∧
    (f.set_auxiliary_carry x).get_interrupt_enable = f.get_interrupt_enable ∧
    (f.set_auxiliary_carry x).get_direction = f.get_direction ∧
    (f.set_auxiliary_carry x).get_trap = f.get_trap ∧
    (f.set_zero x).get_carry = f.get_carry ∧
    (f.set_zero x).get_parity = f.get_parity ∧
    (f.set_zero x).get_auxiliary_carry = f.get_auxiliary_carry ∧
    (f.set_zero x).get_zero = x ∧
    (f.set_zero x).get_sign = f.get_sign ∧
    (f.set_zero x).get_overflow = f.get_overflow ∧
    (f.set_zero x).get_interrupt_enable = f.get_interrupt_enable ∧
    (f.set_zero x).get_direction = f.get_direction ∧
    (f.set_zero x).get_trap = f.get_trap ∧
    (f.set_sign x).get_carry = f.get_carry ∧
    (f.set_sign x).get_parity = f.get_parity ∧
    (f.set_sign x).get_auxiliary_carry = f.get_auxiliary_carry ∧
    (f.set_sign x).get_zero = f.get_zero ∧
    (f.set_sign x).get_sign = x ∧
    (f.set_sign x).get_overflow = f.get_overflow ∧
    (f.set_sign x).get_interrupt_enable = f.get_interrupt_enable ∧
    (f.set_sign x).get_direction = f.get_direction ∧
    (f.set_sign x).get_trap = f.get_trap ∧
    (f.set_overflow x).get_carry = f.get_carry ∧
    (f.set_overflow x).get_parity = f.get_parity ∧
    (f.set_overflow x).get_auxiliary_carry = f.get_auxiliary_carry ∧
    (f.set_overflow x).get_zero = f.get_zero ∧
    (f.set_overflow x).get_sign = f.get_sign ∧
    (f.set_overflow x).get_overflow = x ∧
    (f.set_overflow x).get_interrupt_enable = f.get_interrupt_enable ∧
    (f.set_overflow x).get_direction = f.get_direction ∧
    (f.set_overflow x).get_trap = f.get_trap ∧
    (f.set_interrupt_enable x).get_carry = f.get_carry ∧
    (f.set_interrupt_enable x).get_parity = f.get_parity ∧
    (f.set_interrupt_enable x).get_auxiliary_carry = f.get_auxiliary_carry ∧
    (f.set_interrupt_enable x).get_zero = f.get_zero ∧
    (f.set_interrupt_enable x).get_sign = f.get_sign ∧
    (f.set_interrupt_enable x).get_overflow = f.get_overflow ∧
    (f.set_interrupt_enable x).get_interrupt_enable = x ∧
    (f.set_interrupt_enable x).get_direction = f.get_direction ∧
    (f.set_interrupt_enable x).get_trap = f.get_trap ∧
    (f.set_direction x).get_carry = f.get_carry ∧
    (f.set_direction x).get_parity = f.get_parity ∧
    (f.set_direction x).get_auxiliary_carry = f.get_auxiliary_carry ∧
    (f.set_direction x).get_zero = f.get_zero ∧
    (f.set_direction x).get_sign = f.get_sign ∧
    (f.set_direction x).get_overflow = f.get_overflow ∧
    (f.set_direction x).get_interrupt_enable = f.get_interrupt_enable ∧
    (f.set_direction x).get_direction = x ∧
    (f.set_direction x).get_trap = f.get_trap ∧
    (f.set_trap x).get_carry = f.get_carry ∧
    (f.set_trap x).get_parity = f.get_parity ∧
    (f.set_trap x).get_auxiliary_carry = f.get_auxiliary_carry ∧
    (f.set_trap x).get_zero = f.get_zero ∧
    (f.set_trap x).get_sign = f.get_sign ∧
    (f.set_trap x).get_overflow = f.get_overflow ∧
    (f.set_trap x).get_interrupt_enable = f.get_interrupt_enable ∧
    (f.set_trap x).get_direction = f.get_direction ∧
    (f.set_trap x).get_trap = x := by
  repeat' apply And.intro
  all_goals rfl

/-- C2 counter-evidence: starting from an empty queue, pushing 0x11, 0x22,
0x33 in that order and popping three times yields 0x33, 0x22, 0x11 —
`pop_instruction` removes from the same end `push_instruction` appends to
(the tail), so the first pop is NOT 0x11 as FIFO order would require. -/
theorem pop_instruction_lifo_order :
    (((((BusInterfaceUnit.new 0 0 0 0 0 [] AddressBus.new).push_instruction
        0x11).push_instruction 0x22).push_instruction 0x33).pop_instruction).1
      = some 0x33 ∧
    ((((((BusInterfaceUnit.new 0 0 0 0 0 [] AddressBus.new).push_instruction
        0x11).push_instruction 0x22).push_instruction
        0x33).pop_instruction).2.pop_instruction).1
      = some 0x22 ∧
    (((((((BusInterfaceUnit.new 0 0 0 0 0 [] AddressBus.new).push_instruction
        0x11).push_instruction 0x22).push_instruction
        0x33).pop_instruction).2.pop_instruction).2.pop_instruction).1
      = some 0x11 ∧
    (((((BusInterfaceUnit.new 0 0 0 0 0 [] AddressBus.new).push_instruction
        0x11).push_instruction 0x22).push_instruction 0x33).pop_instruction).1
      ≠ some 0x11 := by
  refine ⟨rfl, rfl, rfl, by decide⟩

/-- C9: popping is a total operation — it returns `none` exactly when the
prefetch queue is empty, returns `some` byte whenever the queue is
non-empty, and never changes the segment registers, the instruction
pointer or the bus; on an empty queue the whole BIU state is unchanged. -/
theorem pop_instruction_empty_queue (b : BusInterfaceUnit) :
    ((b.pop_instruction).1 = none ↔ b.instruction_queue = []) ∧
    (b.pop_instruction).2.es = b.es ∧
    (b.pop_instruction).2.cs = b.cs ∧
    (b.pop_instruction).2.ss = b.ss ∧
    (b.pop_instruction).2.ds = b.ds ∧
    (b.pop_instruction).2.ip = b.ip ∧
    (b.pop_instruction).2.bus = b.bus ∧
    (b.instruction_queue = [] → (b.pop_instruction).2 = b) ∧
    (b.instruction_queue ≠ [] → ∃ x, (b.pop_instruction).1 = some x) := by
  unfold BusInterfaceUnit.pop_instruction
  rcases h : b.instruction_queue.getLast? with _ | x
  · have he : b.instruction_queue = [] := List.getLast?_eq_none_iff.mp h
    simp [h, he]
  · have hne : b.instruction_queue ≠ [] := by
      intro he
      rw [he] at h
      simp at h
    simp [h, hne]

/-- Witness for C9: a one-byte queue pops `some` byte; the empty queue
pops `none`. -/
theorem pop_instruction_empty_queue_witness :
    (BusInterfaceUnit.new 0 0 0 0 0 [0x11] AddressBus.new).instruction_queue ≠ [] ∧
    (∃ x, ((BusInterfaceUnit.new 0 0 0 0 0 [0x11] AddressBus.new).pop_instruction).1
      = some x) ∧
    (((BusInterfaceUnit.new 0 0 0 0 0 [] AddressBus.new).pop_instruction).1 = none ↔
      (BusInterfaceUnit.new 0 0 0 0 0 [] AddressBus.new).instruction_queue = []) :=
  ⟨by decide,
    (pop_instruction_empty_queue
      (BusInterfaceUnit.new 0 0 0 0 0 [0x11] AddressBus.new)).2.2.2.2.2.2.2.2 (by decide),
    (pop_instruction_empty_queue (BusInterfaceUnit.new 0 0 0 0 0 [] AddressBus.new)).1⟩

/-- Helper: the freshly allocated memory has the full 1 MiB length. -/
lemma memory_new_length : Memory.new.data.length = 0x100000 := by
  show (List.replicate MEMORY_SIZE 0).length = 0x100000
  rw [List.length_replicate]
  rfl

/-- C4: bus/memory round-trip — latching a valid address `A` and writing
`v` succeeds, a subsequent read at the still-latched `A` returns `v`, and
the byte stored at every other address is unchanged. -/
theorem bus_memory_roundtrip (b : AddressBus) (A v : Nat)
    (hA : A < 0x100000) (hlen : b.memory.data.length = 0x100000) :
    ∃ b', ((b.set_address A).write v) = some b' ∧
      b'.read = some v ∧
      ∀ A', A' ≠ A → b'.memory.read A' = b.memory.read A' := by
  have hA' : A < b.memory.data.length := by omega
  refine ⟨{ address := A, memory := { data := b.memory.data.set A v } }, ?_, ?_, ?_⟩
  · simp [AddressBus.write, AddressBus.set_address, Memory.write, hA']
  · show Memory.read { data := b.memory.data.set A v } A = some v
    unfold Memory.read
    exact List.getElem?_set_self hA'
  · intro A' hne
    show (b.memory.data.set A v)[A']? = b.memory.data[A']?
    exact List.getElem?_set_ne (Ne.symm hne)

/-- Witness for C4 at the fresh bus, address 2, byte 7. -/
theorem bus_memory_roundtrip_witness :
    (2 : Nat) < 0x100000 ∧ AddressBus.new.memory.data.length = 0x100000 ∧
    ∃ b', ((AddressBus.new.set_address 2).write 7) = some b' ∧
      b'.read = some 7 ∧
      ∀ A', A' ≠ 2 → b'.memory.read A' = AddressBus.new.memory.read A' :=
  ⟨by decide, memory_new_length,
    bus_memory_roundtrip AddressBus.new 2 7 (by decide)
      (memory_new_length)⟩

/-- C5: out-of-range access is fatal, not wrapped — on a memory of length
`MEMORY_SIZE = 0x100000`, `read` and `write` fail (the modelled panic,
`none`) exactly when the address is `>= 0x100000`, and succeed on every
smaller address; the address is never masked or wrapped. -/
theorem memory_out_of_range_access (m : Memory) (a v : Nat)
    (hlen : m.data.length = 0x100000) :
    MEMORY_SIZE = 0x100000 ∧
    (m.read a = none ↔ 0x100000 ≤ a) ∧
    (m.write a v = none ↔ 0x100000 ≤ a) ∧
    (a < 0x100000 → (∃ x, m.read a = some x) ∧ ∃ m', m.write a v = some m') := by
  refine ⟨rfl, ?_, ?_, ?_⟩
  · unfold Memory.read
    rw [← hlen]
    exact List.getElem?_eq_none_iff
  · unfold Memory.write
    constructor
    · intro h
      by_cases hc : a < m.data.length
      · simp [hc] at h
      · omega
    · intro h
      have hc : ¬ a < m.data.length := by omega
      simp [hc]
  · intro ha
    have hlt : a < m.data.length := by omega
    constructor
    · exact ⟨_, List.getElem?_eq_getElem hlt⟩
    · exact ⟨{ data := m.data.set a v }, by simp [Memory.write, hlt]⟩

/-- Witness for C5 at the fresh memory, address 3, byte 9. -/
theorem memory_out_of_range_access_witness :
    Memory.new.data.length = 0x100000 ∧
    (MEMORY_SIZE = 0x100000 ∧
     (Memory.new.read 3 = none ↔ 0x100000 ≤ 3) ∧
     (Memory.new.write 3 9 = none ↔ 0x100000 ≤ 3) ∧
     (3 < 0x100000 →
       (∃ x, Memory.new.read 3 = some x) ∧ ∃ m', Memory.new.write 3 9 = some m')) :=
  ⟨memory_new_length,
    memory_out_of_range_access Memory.new 3 9 (memory_new_length)⟩

/-- C6: memory is constructed as `0x100000` zero bytes, writes never
change its length, and a freshly constructed bus reads 0 at every valid
latched address. -/
theorem memory_initialization :
    Memory.new.data.length = 0x100000 ∧
    (∀ a, a < 0x100000 → Memory.new.read a = some 0) ∧
    (∀ (m m' : Memory) (a v : Nat), m.write a v = some m' →
      m'.data.length = m.data.length) ∧
    (∀ a, a < 0x100000 → (AddressBus.new.set_address a).read = some 0) := by
  have hread : ∀ a, a < 0x100000 → Memory.new.read a = some 0 := by
    intro a ha
    unfold Memory.read Memory.new
    rw [List.getElem?_replicate]
    simp [MEMORY_SIZE, ha]
  refine ⟨memory_new_length, hread, ?_, ?_⟩
  · intro m m' a v h
    unfold Memory.write at h
    by_cases hc : a < m.data.length
    · rw [if_pos hc] at h
      rw [← Option.some.inj h]
      simp [List.length_set]
    · rw [if_neg hc] at h
      exact absurd h (by simp)
  · intro a ha
    exact hread a ha

/-- Witness for C6 at address 5 (and a length-preserving write of 9). -/
theorem memory_initialization_witness :
    (5 : Nat) < 0x100000 ∧
    Memory.new.read 5 = some 0 ∧
    (AddressBus.new.set_address 5).read = some 0 ∧
    Memory.new.write 5 9 = some { data := (List.replicate MEMORY_SIZE 0).set 5 9 } ∧
    (Memory.mk ((List.replicate MEMORY_SIZE 0).set 5 9)).data.length
      = Memory.new.data.length := by
  have hw : Memory.new.write 5 9
      = some { data := (List.replicate MEMORY_SIZE 0).set 5 9 } := by
    unfold Memory.write Memory.new
    rw [List.length_replicate, if_pos (show (5 : Nat) < MEMORY_SIZE by norm_num [MEMORY_SIZE])]
  exact ⟨by decide, memory_initialization.2.1 5 (by decide),
    memory_initialization.2.2.2 5 (by decide), hw,
    memory_initialization.2.2.1 Memory.new _ 5 9 hw⟩

/-- C10: with 16-bit segments and offsets every BIU address function's
result is at most `0x10FFEF`; the maximum is attained at segment and
offset `0xFFFF`, which exceeds the 1 MiB memory bound `0x100000`, and the
memory read at that address is the modelled panic. -/
theorem biu_address_range_bound (b : BusInterfaceUnit) (o s : Nat)
    (hes : b.es < 2 ^ 16) (hcs : b.cs < 2 ^ 16) (hss : b.ss < 2 ^ 16)
    (hds : b.ds < 2 ^ 16) (hip : b.ip < 2 ^ 16) (ho : o < 2 ^ 16) (hs : s < 2 ^ 16) :
    b.get_fetch_address ≤ 0x10FFEF ∧
    b.get_stack_address o ≤ 0x10FFEF ∧
    b.get_string_source_address o none ≤ 0x10FFEF ∧
    b.get_string_source_address o (some s) ≤ 0x10FFEF ∧
    b.get_string_destination_address o ≤ 0x10FFEF ∧
    b.get_data_address o none ≤ 0x10FFEF ∧
    b.get_data_address o (some s) ≤ 0x10FFEF ∧
    b.get_bp_address o none ≤ 0x10FFEF ∧
    b.get_bp_address o (some s) ≤ 0x10FFEF ∧
    (BusInterfaceUnit.new 0 0xFFFF 0 0 0xFFFF [] AddressBus.new).get_fetch_address
      = 0x10FFEF ∧
    0x100000 ≤
      (BusInterfaceUnit.new 0 0xFFFF 0 0 0xFFFF [] AddressBus.new).get_fetch_address ∧
    Memory.new.read 0x10FFEF = none := by
  have hb : ∀ sg oo, sg < 2 ^ 16 → oo < 2 ^ 16 →
      ((sg <<< 4) + oo) % 2 ^ 32 ≤ 0x10FFEF :=
    fun sg oo h1 h2 => le_trans (Nat.mod_le _ _) (segment_offset_sum_le sg oo h1 h2)
  refine ⟨hb b.cs b.ip hcs hip, hb b.ss o hss ho, hb b.ds o hds ho, hb s o hs ho,
    hb b.es o hes ho, hb b.ds o hds ho, hb s o hs ho, hb b.ss o hss ho, hb s o hs ho,
    by decide, by decide, ?_⟩
  unfold Memory.read Memory.new
  apply List.getElem?_eq_none
  rw [List.length_replicate]
  norm_num [MEMORY_SIZE]

/-- Witness for C10 with every segment and offset at the 16-bit maximum. -/
theorem biu_address_range_bound_witness :
    (0xFFFF : Nat) < 2 ^ 16 ∧
    ((BusInterfaceUnit.new 0xFFFF 0xFFFF 0xFFFF 0xFFFF 0xFFFF []
        AddressBus.new).get_fetch_address ≤ 0x10FFEF ∧
      (BusInterfaceUnit.new 0xFFFF 0xFFFF 0xFFFF 0xFFFF 0xFFFF []
        AddressBus.new).get_stack_address 0xFFFF ≤ 0x10FFEF ∧
      (BusInterfaceUnit.new 0xFFFF 0xFFFF 0xFFFF 0xFFFF 0xFFFF []
        AddressBus.new).get_string_source_address 0xFFFF none ≤ 0x10FFEF ∧
      (BusInterfaceUnit.new 0xFFFF 0xFFFF 0xFFFF 0xFFFF 0xFFFF []
        AddressBus.new).get_string_source_address 0xFFFF (some 0xFFFF) ≤ 0x10FFEF ∧
      (BusInterfaceUnit.new 0xFFFF 0xFFFF 0xFFFF 0xFFFF 0xFFFF []
        AddressBus.new).get_string_destination_address 0xFFFF ≤ 0x10FFEF ∧
      (BusInterfaceUnit.new 0xFFFF 0xFFFF 0xFFFF 0xFFFF 0xFFFF []
        AddressBus.new).get_data_address 0xFFFF none ≤ 0x10FFEF ∧
      (BusInterfaceUnit.new 0xFFFF 0xFFFF 0xFFFF 0xFFFF 0xFFFF []
        AddressBus.new).get_data_address 0xFFFF (some 0xFFFF) ≤ 0x10FFEF ∧
      (BusInterfaceUnit.new 0xFFFF 0xFFFF 0xFFFF 0xFFFF 0xFFFF []
        AddressBus.new).get_bp_address 0xFFFF none ≤ 0x10FFEF ∧
      (BusInterfaceUnit.new 0xFFFF 0xFFFF 0xFFFF 0xFFFF 0xFFFF []
        AddressBus.new).get_bp_address 0xFFFF (some 0xFFFF) ≤ 0x10FFEF ∧
      (BusInterfaceUnit.new 0 0xFFFF 0 0 0xFFFF [] AddressBus.new).get_fetch_address
        = 0x10FFEF ∧
      0x100000 ≤
        (BusInterfaceUnit.new 0 0xFFFF 0 0 0xFFFF [] AddressBus.new).get_fetch_address ∧
      Memory.new.read 0x10FFEF = none) :=
  ⟨by decide,
    biu_address_range_bound
      (BusInterfaceUnit.new 0xFFFF 0xFFFF 0xFFFF 0xFFFF 0xFFFF [] AddressBus.new)
      0xFFFF 0xFFFF (by decide) (by decide) (by decide) (by decide) (by decide)
      (by decide) (by decide)⟩
